import Mathlib

/-!
# Verification of the Stoic Wisdom Shorts composition engine

Shallow embedding of the narration-synchronized composition engine:
the narration timeline builder (`core/tts_engine.py`), the timeline
compositor (`core/video_generator.py`), background acquisition
(`core/stock_footage.py`), the person-presence content filter
(`core/person_detector.py`), the text renderer (`core/text_renderer.py`)
and the Ken Burns zoom (`core/background.py`), together with the
configuration constants of `config/settings.py`.

Durations coming from `pydub` are integer milliseconds (modelled as `ℕ`);
timestamps reported to callers are seconds (modelled as `ℚ`, the exact
value of the floating-point division by 1000).  External effects (the
ElevenLabs TTS backend, the Pexels HTTP API, the OpenCV HOG detector,
PIL rasterization) are modelled as explicit oracle parameters; a Python
`try/except` block becomes a `match` on an `Except` result.
-/

namespace StoicShorts

/-! ## Narration timeline builder (`TTSEngine.generate_full_audio`) -/

/-- The timing dict returned by `generate_full_audio` (seconds). -/
structure Timing where
  hook_start : ℚ
  hook_end : ℚ
  quote_start : ℚ
  quote_end : ℚ
  author_start : ℚ
  author_end : ℚ
  reflection_start : ℚ
  reflection_end : ℚ
  total_duration : ℚ
deriving DecidableEq, Repr

/-- The `pydub` audio segments appended to `segments`, in source order:
`[silence 500, hook, pause 1200, quote, pause 800, author, pause 1500,
reflection, silence 800]`, each given by its length in milliseconds.
`len(full_audio)` of the concatenation is the sum of these lengths. -/
def appendedSegmentsMs (hookMs quoteMs authorMs reflectionMs : ℕ) : List ℕ :=
  [500, hookMs, 1200, quoteMs, 800, authorMs, 1500, reflectionMs, 800]

/-- Length in milliseconds of the exported concatenated audio. -/
def fullAudioMs (hookMs quoteMs authorMs reflectionMs : ℕ) : ℕ :=
  (appendedSegmentsMs hookMs quoteMs authorMs reflectionMs).sum

/-- The running-cursor computation of `generate_full_audio`
(`tts_engine.py` lines 211–284): the cursor advances over
silence 500, hook, pause 1200, quote, pause 800, author, pause 1500,
reflection, silence 800; each speech segment records the cursor before
and after its insertion, and every recorded value is divided by 1000. -/
def generateTiming (hookMs quoteMs authorMs reflectionMs : ℕ) : Timing :=
  let c1 : ℕ := 0 + 500
  let hookStart := c1
  let c2 := c1 + hookMs
  let hookEnd := c2
  let c3 := c2 + 1200
  let quoteStart := c3
  let c4 := c3 + quoteMs
  let quoteEnd := c4
  let c5 := c4 + 800
  let authorStart := c5
  let c6 := c5 + authorMs
  let authorEnd := c6
  let c7 := c6 + 1500
  let reflectionStart := c7
  let c8 := c7 + reflectionMs
  let reflectionEnd := c8
  { hook_start := (hookStart : ℚ) / 1000
    hook_end := (hookEnd : ℚ) / 1000
    quote_start := (quoteStart : ℚ) / 1000
    quote_end := (quoteEnd : ℚ) / 1000
    author_start := (authorStart : ℚ) / 1000
    author_end := (authorEnd : ℚ) / 1000
    reflection_start := (reflectionStart : ℚ) / 1000
    reflection_end := (reflectionEnd : ℚ) / 1000
    total_duration := (fullAudioMs hookMs quoteMs authorMs reflectionMs : ℚ) / 1000 }

/-- Modelled from the spec: the reference timeline of the claim, built by a
cursor in seconds over the fixed order
silence(0.5) → hook → silence(1.2) → quote → silence(0.8) → author →
silence(1.5) → reflection → silence(0.8), from the four segment
durations in seconds. -/
def refTimeline (dh dq da dr : ℚ) : Timing :=
  let hs : ℚ := 1/2
  let he := hs + dh
  let qs := he + 12/10
  let qe := qs + dq
  let as_ := qe + 8/10
  let ae := as_ + da
  let rs := ae + 15/10
  let re := rs + dr
  { hook_start := hs, hook_end := he, quote_start := qs, quote_end := qe
    author_start := as_, author_end := ae, reflection_start := rs
    reflection_end := re, total_duration := re + 8/10 }

/-! ## Timeline compositor (`generate_stoic_short`, `video_generator.py`) -/

/-- `MIN_DURATION` from `config/settings.py`. -/
def MIN_DURATION : ℚ := 30

/-- `MAX_DURATION` from `config/settings.py`. -/
def MAX_DURATION : ℚ := 58

/-- `cta_duration = 4.0` from `generate_stoic_short`. -/
def ctaDuration : ℚ := 4

/-- Total visual duration (`video_generator.py` lines 130–134):
`total = min(audio + cta, MAX_DURATION)` then `total = max(total, MIN_DURATION)`. -/
def totalVisualDuration (audioDuration : ℚ) : ℚ :=
  max (min (audioDuration + ctaDuration) MAX_DURATION) MIN_DURATION

/-- A composited layer: its `set_start` time and its clip duration. -/
structure Layer where
  start : ℚ
  dur : ℚ
deriving DecidableEq, Repr

/-- The instant a layer leaves the screen. -/
def Layer.stop (l : Layer) : ℚ := l.start + l.dur

/-- `author_end` after the legality adjustment of `video_generator.py`
lines 181–182: `if author_end <= quote_start: author_end = quote_start + 3.0`. -/
def adjustedAuthorEnd (tm : Timing) : ℚ :=
  if tm.author_end ≤ tm.quote_start then tm.quote_start + 3 else tm.author_end

/-- Hook overlay (`video_generator.py` lines 160–174):
duration `hook_end - hook_start + 1.0`, start `max(0, hook_start - 0.3)`. -/
def hookLayer (tm : Timing) : Layer :=
  { start := max 0 (tm.hook_start - 3/10), dur := tm.hook_end - tm.hook_start + 1 }

/-- Quote overlay (lines 177–194): duration
`author_end - quote_start + 1.5`, start `quote_start - 0.2`. -/
def quoteLayer (tm : Timing) : Layer :=
  { start := tm.quote_start - 2/10, dur := adjustedAuthorEnd tm - tm.quote_start + 15/10 }

/-- Decorative divider (lines 197–204): same duration as the quote
overlay, start `quote_start` (no lead). -/
def lineLayer (tm : Timing) : Layer :=
  { start := tm.quote_start, dur := adjustedAuthorEnd tm - tm.quote_start + 15/10 }

/-- Author overlay (lines 207–219): duration
`author_end - author_start + 1.5`, start `author_start - 0.1`. -/
def authorLayer (tm : Timing) : Layer :=
  { start := tm.author_start - 1/10, dur := adjustedAuthorEnd tm - tm.author_start + 15/10 }

/-- Reflection overlay (lines 222–235): duration
`reflection_end - reflection_start + 1.5`, start `reflection_start - 0.3`. -/
def reflectionLayer (tm : Timing) : Layer :=
  { start := tm.reflection_start - 3/10
    dur := tm.reflection_end - tm.reflection_start + 15/10 }

/-- CTA overlay (lines 238–248): start
`max(reflection_end + 0.5, total_duration - cta_duration)`, duration up to
`total_duration` (the layer is added only when this exceeds 1 second). -/
def ctaLayer (tm : Timing) (total : ℚ) : Layer :=
  let s := max (tm.reflection_end + 5/10) (total - ctaDuration)
  { start := s, dur := total - s }

/-! ## Effectful builder and compositor: temp files and failure paths

The TTS backend (`TTSEngine.generate_speech`) is an oracle
`String → Option ℕ`: `some d` means the ElevenLabs call succeeded and
wrote a non-empty file decoding to `d` milliseconds of audio; `none`
means the call raised or the written file was empty or missing, either
of which `generate_speech` turns into a raised `TTSError`. -/

/-- `TTSEngine.generate_full_audio` with its filesystem effect.  The four
segments are synthesized in source order (hook, quote, author,
reflection), each appending its transient `_tts_*.mp3` file to
`temp_files` on success; a raised `TTSError` propagates immediately
(there is no `try/finally`), leaving the files created so far on disk.
Only after all four succeed does the cleanup loop
(`for f in temp_files: f.unlink(...)`) run, before the export.  Returns
the outcome together with the list of transient files remaining on disk
when the call finishes. -/
def generateFullAudio (synth : String → Option ℕ)
    (hook_text quote_text author_name reflection_text : String) :
    Except Unit Timing × List String :=
  match synth hook_text with
  | none => (.error (), [])
  | some dh =>
    match synth quote_text with
    | none => (.error (), ["_tts_hook.mp3"])
    | some dq =>
      match synth author_name with
      | none => (.error (), ["_tts_hook.mp3", "_tts_quote.mp3"])
      | some da =>
        match synth reflection_text with
        | none => (.error (), ["_tts_hook.mp3", "_tts_quote.mp3", "_tts_author.mp3"])
        | some dr => (.ok (generateTiming dh dq da dr), [])

/-- Steps 4–5 of `generate_stoic_short` with their filesystem effect: the
temporary mixed-audio file `quote_<id>_mixed.mp3` (modelled as
`"mixed.mp3"`) is written by `write_audiofile`, and is unlinked only in
the cleanup block that follows a successful `write_videofile`; a failure
in either write propagates (no `try/finally`), leaving the temp file on
disk.  The two `Bool`s are the outcomes of the two write calls. -/
def compositeAndExport (writeAudioOk writeVideoOk : Bool) :
    Except Unit Unit × List String :=
  if writeAudioOk then
    if writeVideoOk then (.ok (), []) else (.error (), ["mixed.mp3"])
  else (.error (), ["mixed.mp3"])

/-! ## Text renderer: font tier selection (`get_font_settings`) -/

/-- One entry of `FONT_SIZE_CONFIG`. -/
structure FontTier where
  max_words : ℕ
  font_size : ℕ
  words_per_line : ℕ
deriving DecidableEq, Repr

/-- `FONT_SIZE_CONFIG` from `config/settings.py`, in dict insertion
order: short ≤ 12 words, medium ≤ 25, long ≤ 45, extra ≤ 999. -/
def FONT_SIZE_CONFIG : List (String × FontTier) :=
  [("short", ⟨12, 72, 4⟩), ("medium", ⟨25, 58, 5⟩),
   ("long", ⟨45, 48, 6⟩), ("extra", ⟨999, 40, 7⟩)]

/-- The dict returned by `get_font_settings`. -/
structure FontSettings where
  font_size : ℕ
  words_per_line : ℕ
deriving DecidableEq, Repr

/-- `get_font_settings` (`text_renderer.py` lines 98–110): iterate
`FONT_SIZE_CONFIG` in order and return the first tier whose inclusive
bound satisfies `word_count <= max_words`; fall back to the last tier. -/
def get_font_settings (word_count : ℕ) : FontSettings :=
  match FONT_SIZE_CONFIG.find? (fun tc => word_count ≤ tc.2.max_words) with
  | some tc => ⟨tc.2.font_size, tc.2.words_per_line⟩
  | none =>
    let lastTier := (FONT_SIZE_CONFIG.getLastD ("extra", ⟨999, 40, 7⟩)).2
    ⟨lastTier.font_size, lastTier.words_per_line⟩

/-! ## Person-presence content filter (`core/person_detector.py`)

The OpenCV HOG backend is an oracle `hog : ℕ → Except Unit (List ℚ)`
mapping a frame (identified by a number) to the detection weights of
`detectMultiScale`, or to a raised error.  Frame extraction is the
oracle result `Except Unit (List ℕ)` (a raised error, or the list of
frames actually read). -/

/-- `np.linspace a b n`: `n` evenly spaced points from `a` to `b`,
endpoints included (numpy convention). -/
def linspace (a b : ℚ) : ℕ → List ℚ
  | 0 => []
  | 1 => [a]
  | n + 2 => (List.range (n + 2)).map (fun i => a + (b - a) * i / (n + 1))

/-- The sampled frame indices of `_extract_frames`:
`[int(total * p) for p in np.linspace(0.1, 0.9, num_frames)]`
(`int` truncation equals the floor here, all values being nonnegative). -/
def samplePositions (total : ℕ) (numFrames : ℕ) : List ℤ :=
  (linspace (1/10) (9/10) numFrames).map (fun p => ⌊(total : ℚ) * p⌋)

/-- `_detect_people_in_frame` given the HOG weights of the frame:
`True` iff some detection weight exceeds the 0.3 confidence threshold. -/
def detectPeopleInFrame (weights : List ℚ) : Bool :=
  weights.any (fun w => 3/10 < w)

/-- Whether a frame yields a person detection: the HOG call's weights
pass the threshold (an erroring call yields no detection). -/
def frameDetects (hog : ℕ → Except Unit (List ℚ)) (f : ℕ) : Bool :=
  match hog f with
  | .error _ => false
  | .ok ws => detectPeopleInFrame ws

/-- The detection loop of `has_people`: frames in order; a frame passing
the threshold returns `True` immediately; a raised error from the HOG
call aborts the whole function, whose `except` handler returns `False`. -/
def detectLoop (hog : ℕ → Except Unit (List ℚ)) : List ℕ → Bool
  | [] => false
  | f :: fs =>
    match hog f with
    | .error _ => false
    | .ok ws => if detectPeopleInFrame ws then true else detectLoop hog fs

/-- `has_people` (`person_detector.py` lines 17–34): `False` when the
detection backend is unavailable (`DETECTION_AVAILABLE = False`),
`False` when frame extraction raises, otherwise the detection loop over
the extracted frames. -/
def hasPeople (available : Bool) (extractFrames : Except Unit (List ℕ))
    (hog : ℕ → Except Unit (List ℚ)) : Bool :=
  if available then
    match extractFrames with
    | .error _ => false
    | .ok frames => detectLoop hog frames
  else false

/-! ## PIL text renderer cache (`PILTextRenderer.render_text`)

The PIL drawing pipeline (wrap, measure, shadow layer, stroked fill,
glow) is an oracle `rasterize : RenderParams → Raster` from the full
parameter list to the produced RGBA raster; `render_text`'s own logic is
the cache in front of it. -/

/-- The full parameter list of `render_text`. -/
structure RenderParams where
  text : String
  font_path : String
  font_size : ℕ
  color : String
  max_width : ℕ
  words_per_line : ℕ
  stroke_color : String
  stroke_width : ℕ
  shadow_color : String
  shadow_offset : ℤ × ℤ
  shadow_opacity : ℚ
  align : String
  enable_glow : Bool
  glow_radius : ℕ
  glow_opacity : ℚ
deriving DecidableEq, Repr

/-- The cache key of `render_text` (`text_renderer.py` line 162):
`(text, font_path, font_size, color, words_per_line, align, enable_glow)`.
`max_width` and the stroke, shadow and glow-radius/opacity parameters are
not part of the key. -/
def cacheKey (p : RenderParams) :
    String × String × ℕ × String × ℕ × String × Bool :=
  (p.text, p.font_path, p.font_size, p.color, p.words_per_line, p.align,
    p.enable_glow)

/-- The renderer's `_cache` dict, as an association list. -/
def RenderCache (Raster : Type) : Type :=
  List ((String × String × ℕ × String × ℕ × String × Bool) × Raster)

/-- `render_text` (`text_renderer.py` lines 123–217): on a cache hit for
the key, return (a pixel-identical copy of) the cached raster without
rasterizing; otherwise rasterize from the full parameter list and store
the result under the key.  Returns the raster and the updated cache. -/
def renderText {Raster : Type} (rasterize : RenderParams → Raster)
    (cache : RenderCache Raster) (p : RenderParams) :
    Raster × RenderCache Raster :=
  match List.find? (fun e => e.1 = cacheKey p) cache with
  | some e => (e.2, cache)
  | none => (rasterize p, (cacheKey p, rasterize p) :: cache)

/-- Concrete parameters used to exercise the cache (quote-overlay
defaults of `settings.py`). -/
def sampleParams : RenderParams :=
  { text := "the obstacle is the way", font_path := "PlayfairDisplay-Bold.ttf"
    font_size := 72, color := "#FFFFFF", max_width := 886, words_per_line := 4
    stroke_color := "#000000", stroke_width := 3, shadow_color := "#000000"
    shadow_offset := (3, 3), shadow_opacity := 85/100, align := "center"
    enable_glow := true, glow_radius := 12, glow_opacity := 35/100 }

/-! ## Ken Burns zoom (`apply_ken_burns_effect`, `core/background.py`) -/

/-- `current_zoom = 1 + (zoom_ratio - 1) * progress` with
`progress = t / duration` (`background.py` lines 54–56). -/
def currentZoom (zoomRatio duration t : ℚ) : ℚ :=
  1 + (zoomRatio - 1) * (t / duration)

/-- `new_w = int(w / current_zoom)`; the `int` truncation equals the
floor since both operands are nonnegative. -/
def cropWidth (w : ℕ) (zoomRatio duration t : ℚ) : ℤ :=
  ⌊(w : ℚ) / currentZoom zoomRatio duration t⌋

/-- The crop box handed to `PIL.Image.crop`. -/
structure CropWindow where
  x1 : ℤ
  y1 : ℤ
  x2 : ℤ
  y2 : ℤ
deriving DecidableEq, Repr

/-- The crop window of `zoom_effect` (`background.py` lines 58–66):
`x1 = (w - new_w) // 2`, `y1 = (h - new_h) // 2`, `x2 = x1 + new_w`,
`y2 = y1 + new_h` (Python `//` is floor division, `Int.fdiv`). -/
def kenBurnsCropWindow (w h : ℕ) (zoomRatio duration t : ℚ) : CropWindow :=
  let newW := cropWidth w zoomRatio duration t
  let newH := cropWidth h zoomRatio duration t
  let x1 := ((w : ℤ) - newW).fdiv 2
  let y1 := ((h : ℤ) - newH).fdiv 2
  { x1 := x1, y1 := y1, x2 := x1 + newW, y2 := y1 + newH }

/-- Modelled from the spec: the crop width the claim describes, shrinking
linearly (affinely in `t`) from the full frame `w` at `t = 0` to `w / z`
at `t = duration`. -/
def linearCropWidth (w : ℕ) (zoomRatio duration t : ℚ) : ℚ :=
  w + ((w : ℚ) / zoomRatio - w) * (t / duration)

/-! ## Background acquisition (`core/stock_footage.py`)

The Pexels HTTP layer is an oracle: `http` maps a query to the parsed
search response or a raised error, `fetch` performs the streamed file
download.  `random.random() < 0.2`, `random.shuffle` and the two
`random.choice` calls are the data of `AcqRandom`; `random.choice`
on a non-empty list is the element at the drawn index reduced modulo
the length.  The content filter never raises (`has_people` returns a
`Bool`, see `hasPeople`). -/

/-- `STOCK_SEARCH_QUERIES` from `config/settings.py`. -/
def STOCK_SEARCH_QUERIES : List String :=
  ["dark clouds dramatic vertical", "ocean storm vertical",
   "ancient ruins vertical", "marble statue vertical",
   "rainy window vertical", "fog forest dark vertical",
   "fire flames dark vertical", "night sky stars vertical",
   "lightning storm vertical", "candle flame dark vertical",
   "mountain peak clouds vertical", "dark water reflection vertical"]

/-- One entry of a Pexels `video_files` list. -/
structure VideoFile where
  width : ℕ
  height : ℕ
  link : String
deriving DecidableEq, Repr

/-- One Pexels search hit. -/
structure PexelsVideo where
  id : ℕ
  duration : ℕ
  video_files : List VideoFile
deriving DecidableEq, Repr

/-- The parsed payload of a Pexels search response. -/
structure SearchResponse where
  status_code : ℕ
  videos : List PexelsVideo
deriving Repr

/-- `search_pexel_video` (`stock_footage.py` lines 31–61): `None` without
any request when no API key is set; the whole request/parse body sits in
`try/except`, so a raised error is absorbed into `None`; a 200 response
with hits has them filtered to 15–90 s and one picked by
`random.choice`. -/
def searchPexelVideo (apiKeySet : Bool)
    (http : String → Except Unit SearchResponse) (pick : ℕ)
    (query : String) : Option PexelsVideo :=
  if apiKeySet then
    match http query with
    | .error _ => none
    | .ok resp =>
      if resp.status_code = 200 then
        if resp.videos.isEmpty then none
        else
          let valid := resp.videos.filter
            (fun v => 15 ≤ v.duration ∧ v.duration ≤ 90)
          valid.get? (pick % valid.length)
      else none
  else none

/-- The cache filename `download_video` writes:
`pexels_<id>_<height>p.mp4`. -/
def targetFileName (video : PexelsVideo) (vf : VideoFile) : String :=
  "pexels_" ++ toString video.id ++ "_" ++ toString vf.height ++ "p.mp4"

/-- `download_video` (`stock_footage.py` lines 63–105): stable-sort
`video_files` by pixel area descending, prefer the first file of at
least 720×1280 else the largest; reuse the file if it is already in the
cache; otherwise the streamed download sits in `try/except`, a raised
error being absorbed into `None`. -/
def downloadVideo (fileExists : String → Bool)
    (fetch : String → Except Unit Unit) (video : PexelsVideo) :
    Option String :=
  let files := video.video_files.mergeSort
    (fun a b => b.width * b.height ≤ a.width * a.height)
  let target? :=
    match files.find? (fun vf => 720 ≤ vf.width ∧ 1280 ≤ vf.height) with
    | some vf => some vf
    | none => files.head?
  match target? with
  | none => none
  | some vf =>
    let filename := targetFileName video vf
    if fileExists filename then some filename
    else
      match fetch vf.link with
      | .error _ => none
      | .ok _ => some filename

/-- The random draws of one `get_dynamic_background` call. -/
structure AcqRandom where
  reuseRoll : Bool
  shuffled : List String
  queryPick : ℕ → ℕ
  candPick : ℕ → ℕ

/-- The provider and filesystem oracles of one call. -/
structure AcqEnv where
  apiKeySet : Bool
  http : String → Except Unit SearchResponse
  fetch : String → Except Unit Unit
  fileExists : String → Bool
  hasPeopleFile : String → Bool

/-- The fresh-download loop of `get_dynamic_background`
(`stock_footage.py` lines 148–166): up to 3 iterations; each picks a
query not yet tried (breaking when none is left), records it in
`tried_queries`, then searches and downloads; a clip with people is
deleted and the loop continues; a clean clip is returned at once.
Returns the outcome and the list of queries searched, in order. -/
def freshLoop (env : AcqEnv) (rnd : AcqRandom) :
    ℕ → List String → Option String × List String
  | 0, tried => (none, tried)
  | n + 1, tried =>
    let available := STOCK_SEARCH_QUERIES.filter (fun q => ¬ q ∈ tried)
    match available.get? (rnd.queryPick n % available.length) with
    | none => (none, tried)
    | some q =>
      match searchPexelVideo env.apiKeySet env.http (rnd.candPick n) q with
      | none => freshLoop env rnd n (tried ++ [q])
      | some video =>
        match downloadVideo env.fileExists env.fetch video with
        | none => freshLoop env rnd n (tried ++ [q])
        | some path =>
          if env.hasPeopleFile path then freshLoop env rnd n (tried ++ [q])
          else (some path, tried ++ [q])

/-- `get_dynamic_background` (`stock_footage.py` lines 130–174): with a
20 % roll, try up to 3 shuffled cached clips; otherwise run the
fresh-download loop; failing that, scan the whole cache (in shuffled
order if the roll shuffled it in place) for a clean clip; else `None`
(the caller then falls back to the static local pool).  Returns the
result and the list of fresh search queries used. -/
def getDynamicBackground (env : AcqEnv) (rnd : AcqRandom)
    (cachedFiles : List String) : Option String × List String :=
  let order := if cachedFiles ≠ [] ∧ rnd.reuseRoll then rnd.shuffled
    else cachedFiles
  let fromCache :=
    if cachedFiles ≠ [] ∧ rnd.reuseRoll then
      (order.take 3).find? (fun f => ¬ env.hasPeopleFile f = true)
    else none
  match fromCache with
  | some f => (some f, [])
  | none =>
    match freshLoop env rnd 3 [] with
    | (some p, log) => (some p, log)
    | (none, log) =>
      match order.find? (fun f => ¬ env.hasPeopleFile f = true) with
      | some f => (some f, log)
      | none => (none, log)

end StoicShorts

namespace StoicShorts

/-- C1: for every quadruple of synthesized segment lengths, the timing map
returned by `generate_full_audio` equals the reference cursor timeline
(hook_start = 0.5, each end = start + segment duration, gaps 1.2 / 0.8 /
1.5 between consecutive segments), the reported total duration equals
reflection_end + 0.8 and equals the exact duration of the exported
concatenated audio, and the segments are non-overlapping:
hook_end ≤ quote_start, quote_end ≤ author_start,
author_end ≤ reflection_start. -/
theorem generate_full_audio_timing_correct (hookMs quoteMs authorMs reflectionMs : ℕ) :
    generateTiming hookMs quoteMs authorMs reflectionMs =
      refTimeline ((hookMs : ℚ) / 1000) ((quoteMs : ℚ) / 1000)
        ((authorMs : ℚ) / 1000) ((reflectionMs : ℚ) / 1000) ∧
    (generateTiming hookMs quoteMs authorMs reflectionMs).total_duration =
      (generateTiming hookMs quoteMs authorMs reflectionMs).reflection_end + 8/10 ∧
    (generateTiming hookMs quoteMs authorMs reflectionMs).total_duration =
      (fullAudioMs hookMs quoteMs authorMs reflectionMs : ℚ) / 1000 ∧
    (generateTiming hookMs quoteMs authorMs reflectionMs).hook_end ≤
      (generateTiming hookMs quoteMs authorMs reflectionMs).quote_start ∧
    (generateTiming hookMs quoteMs authorMs reflectionMs).quote_end ≤
      (generateTiming hookMs quoteMs authorMs reflectionMs).author_start ∧
    (generateTiming hookMs quoteMs authorMs reflectionMs).author_end ≤
      (generateTiming hookMs quoteMs authorMs reflectionMs).reflection_start := by
  refine ⟨?_, ?_, ?_, ?_, ?_, ?_⟩
  · simp only [generateTiming, refTimeline, fullAudioMs, appendedSegmentsMs, List.sum_cons,
      List.sum_nil, Timing.mk.injEq]
    refine ⟨?_, ?_, ?_, ?_, ?_, ?_, ?_, ?_, ?_⟩ <;> push_cast <;> ring
  · simp only [generateTiming, fullAudioMs, appendedSegmentsMs, List.sum_cons, List.sum_nil]
    push_cast
    ring
  · rfl
  · simp only [generateTiming]
    rw [div_le_div_iff_of_pos_right (by norm_num : (0:ℚ) < 1000)]
    push_cast
    linarith
  · simp only [generateTiming]
    rw [div_le_div_iff_of_pos_right (by norm_num : (0:ℚ) < 1000)]
    push_cast
    linarith
  · simp only [generateTiming]
    rw [div_le_div_iff_of_pos_right (by norm_num : (0:ℚ) < 1000)]
    push_cast
    linarith

/-- On every timing map produced by the builder, the legality adjustment
of `author_end` is a no-op: `author_end > quote_start` always. -/
theorem adjustedAuthorEnd_eq (dh dq da dr : ℕ) :
    adjustedAuthorEnd (generateTiming dh dq da dr) =
      (generateTiming dh dq da dr).author_end := by
  rw [adjustedAuthorEnd, if_neg]
  simp only [generateTiming, not_le]
  rw [div_lt_div_iff_of_pos_right (by norm_num : (0:ℚ) < 1000)]
  push_cast
  linarith

/-- C2 counterexample: with every synthesized segment exactly 1000 ms long,
no overlay layer ends at the instant the claim states.  The hook layer
leaves the screen at `hook_end + 0.7` (claims `hook_end + 1.0`), the quote
layer at `author_end + 1.3` (claims `author_end + 1.5`), the author layer
at `author_end + 1.4` (claims `author_end + 1.5`), and the reflection
layer at `reflection_end + 1.2` (claims `reflection_end + 1.5`). -/
theorem overlay_window_ends_counterexample :
    (hookLayer (generateTiming 1000 1000 1000 1000)).stop ≠
      (generateTiming 1000 1000 1000 1000).hook_end + 1 ∧
    (quoteLayer (generateTiming 1000 1000 1000 1000)).stop ≠
      (generateTiming 1000 1000 1000 1000).author_end + 15/10 ∧
    (authorLayer (generateTiming 1000 1000 1000 1000)).stop ≠
      (generateTiming 1000 1000 1000 1000).author_end + 15/10 ∧
    (reflectionLayer (generateTiming 1000 1000 1000 1000)).stop ≠
      (generateTiming 1000 1000 1000 1000).reflection_end + 15/10 := by
  refine ⟨?_, ?_, ?_, ?_⟩ <;>
    norm_num [hookLayer, quoteLayer, authorLayer, reflectionLayer, Layer.stop,
      adjustedAuthorEnd, generateTiming, fullAudioMs, appendedSegmentsMs]

/-- C2 amended: on every timing map produced by the builder, each overlay
layer's on-screen window is shifted early by its lead but keeps the
duration measured from the segment start, so it ends lead-short of the
claimed instant: hook `[hook_start − 0.3, hook_end + 0.7]`, quote
`[quote_start − 0.2, author_end + 1.3]`, decorative divider
`[quote_start, author_end + 1.5]`, author
`[author_start − 0.1, author_end + 1.4]`, reflection
`[reflection_start − 0.3, reflection_end + 1.2]`. -/
theorem overlay_windows (dh dq da dr : ℕ) :
    (hookLayer (generateTiming dh dq da dr)).start =
      (generateTiming dh dq da dr).hook_start - 3/10 ∧
    (hookLayer (generateTiming dh dq da dr)).stop =
      (generateTiming dh dq da dr).hook_end + 7/10 ∧
    (quoteLayer (generateTiming dh dq da dr)).start =
      (generateTiming dh dq da dr).quote_start - 2/10 ∧
    (quoteLayer (generateTiming dh dq da dr)).stop =
      (generateTiming dh dq da dr).author_end + 13/10 ∧
    (lineLayer (generateTiming dh dq da dr)).start =
      (generateTiming dh dq da dr).quote_start ∧
    (lineLayer (generateTiming dh dq da dr)).stop =
      (generateTiming dh dq da dr).author_end + 15/10 ∧
    (authorLayer (generateTiming dh dq da dr)).start =
      (generateTiming dh dq da dr).author_start - 1/10 ∧
    (authorLayer (generateTiming dh dq da dr)).stop =
      (generateTiming dh dq da dr).author_end + 14/10 ∧
    (reflectionLayer (generateTiming dh dq da dr)).start =
      (generateTiming dh dq da dr).reflection_start - 3/10 ∧
    (reflectionLayer (generateTiming dh dq da dr)).stop =
      (generateTiming dh dq da dr).reflection_end + 12/10 := by
  have hmax : max (0:ℚ) ((generateTiming dh dq da dr).hook_start - 3/10) =
      (generateTiming dh dq da dr).hook_start - 3/10 := by
    rw [max_eq_right]
    simp only [generateTiming]
    push_cast
    norm_num
  refine ⟨?_, ?_, ?_, ?_, ?_, ?_, ?_, ?_, ?_, ?_⟩ <;>
    simp only [hookLayer, quoteLayer, lineLayer, authorLayer, reflectionLayer,
      Layer.stop, adjustedAuthorEnd_eq, hmax] <;>
    simp only [generateTiming] <;> push_cast <;> ring

/-- C3: for every narration audio duration, the total visual duration is
`max(MIN_DURATION, min(MAX_DURATION, duration + CTA tail))`, hence always
in `[MIN_DURATION, MAX_DURATION] = [30, 58]`; a 20 s narration yields a
30 s video and a 90 s narration yields a 58 s video. -/
theorem total_visual_duration_clamped (d : ℚ) :
    totalVisualDuration d = max MIN_DURATION (min MAX_DURATION (d + ctaDuration)) ∧
    MIN_DURATION ≤ totalVisualDuration d ∧
    totalVisualDuration d ≤ MAX_DURATION ∧
    MIN_DURATION = 30 ∧ MAX_DURATION = 58 ∧
    totalVisualDuration 20 = 30 ∧ totalVisualDuration 90 = 58 := by
  refine ⟨by rw [totalVisualDuration, max_comm, min_comm], le_max_right _ _, ?_,
    rfl, rfl, by norm_num [totalVisualDuration, MIN_DURATION, MAX_DURATION, ctaDuration],
    by norm_num [totalVisualDuration, MIN_DURATION, MAX_DURATION, ctaDuration]⟩
  rw [totalVisualDuration]
  exact max_le (le_trans (min_le_right _ _) (by norm_num [MAX_DURATION]))
    (by norm_num [MIN_DURATION, MAX_DURATION])

/-- C4 counterexample: `generate_full_audio` does not special-case empty
text.  Under a backend whose synthesis of the empty string writes an
empty file (a `TTSError` in `generate_speech`), the call with an empty
`hook_text` raises instead of succeeding; and under a backend whose
synthesis of the empty string decodes to 250 ms of audio, the call
succeeds but records `hook_start ≠ hook_end` for the empty segment. -/
theorem empty_segment_counterexample :
    (generateFullAudio (fun s => if s = "" then none else some 1000)
      "" "q" "a" "r").1 = .error () ∧
    ((generateFullAudio (fun s => if s = "" then some 250 else some 1000)
      "" "q" "a" "r").1 =
      .ok (generateTiming 250 1000 1000 1000) ∧
     (generateTiming 250 1000 1000 1000).hook_start ≠
      (generateTiming 250 1000 1000 1000).hook_end) := by
  refine ⟨rfl, rfl, ?_⟩
  norm_num [generateTiming]

/-- C4 amended: `generate_full_audio` treats an empty-text segment like
any other — the segment occupies exactly the duration of the audio the
backend returns for it, so `start = end` precisely when that audio is
zero-length; whenever all four backend calls succeed the timeline stays
internally consistent (the fixed silences still separate consecutive
segments and the total duration is `reflection_end + 0.8`), and if the
backend call for any segment fails or writes an empty file the whole
operation raises `TTSError`. -/
theorem empty_segment_zero_duration (synth : String → Option ℕ)
    (hook_text quote_text author_name reflection_text : String)
    (dh dq da dr : ℕ)
    (h1 : synth hook_text = some dh) (h2 : synth quote_text = some dq)
    (h3 : synth author_name = some da) (h4 : synth reflection_text = some dr) :
    (generateFullAudio synth hook_text quote_text author_name reflection_text).1 =
      .ok (generateTiming dh dq da dr) ∧
    ((generateTiming dh dq da dr).hook_start = (generateTiming dh dq da dr).hook_end ↔
      dh = 0) ∧
    ((generateTiming dh dq da dr).reflection_start =
        (generateTiming dh dq da dr).reflection_end ↔ dr = 0) ∧
    (generateTiming dh dq da dr).quote_start =
      (generateTiming dh dq da dr).hook_end + 12/10 ∧
    (generateTiming dh dq da dr).author_start =
      (generateTiming dh dq da dr).quote_end + 8/10 ∧
    (generateTiming dh dq da dr).reflection_start =
      (generateTiming dh dq da dr).author_end + 15/10 ∧
    (generateTiming dh dq da dr).total_duration =
      (generateTiming dh dq da dr).reflection_end + 8/10 := by
  refine ⟨?_, ?_, ?_, ?_, ?_, ?_, ?_⟩
  · rw [generateFullAudio, h1, h2, h3, h4]
  · simp only [generateTiming]
    rw [div_eq_div_iff (by norm_num : (1000:ℚ) ≠ 0) (by norm_num : (1000:ℚ) ≠ 0)]
    push_cast
    constructor
    · intro h
      have hq : (dh : ℚ) = 0 := by linarith
      exact_mod_cast hq
    · intro h
      subst h
      norm_num
  · simp only [generateTiming]
    rw [div_eq_div_iff (by norm_num : (1000:ℚ) ≠ 0) (by norm_num : (1000:ℚ) ≠ 0)]
    push_cast
    constructor
    · intro h
      have hq : (dr : ℚ) = 0 := by linarith
      exact_mod_cast hq
    · intro h
      subst h
      norm_num
  · simp only [generateTiming]
    push_cast
    ring
  · simp only [generateTiming]
    push_cast
    ring
  · simp only [generateTiming]
    push_cast
    ring
  · simp only [generateTiming, fullAudioMs, appendedSegmentsMs, List.sum_cons, List.sum_nil]
    push_cast
    ring

/-- Witness for `empty_segment_zero_duration` at a backend that returns
zero-length audio for the empty string and 1000 ms otherwise. -/
theorem empty_segment_zero_duration_witness :
    (generateFullAudio (fun s => if s = "" then some 0 else some 1000)
      "" "q" "a" "r").1 = .ok (generateTiming 0 1000 1000 1000) ∧
    ((generateTiming 0 1000 1000 1000).hook_start =
      (generateTiming 0 1000 1000 1000).hook_end ↔ (0:ℕ) = 0) :=
  ⟨(empty_segment_zero_duration (fun s => if s = "" then some 0 else some 1000)
      "" "q" "a" "r" 0 1000 1000 1000 rfl rfl rfl rfl).1,
   (empty_segment_zero_duration (fun s => if s = "" then some 0 else some 1000)
      "" "q" "a" "r" 0 1000 1000 1000 rfl rfl rfl rfl).2.1⟩

/-- C5 counterexample: cleanup does not run on the failure path.  In the
builder, a backend failing on the quote segment (after a successful hook
segment) leaves the transient `_tts_hook.mp3` on disk; in the
compositor, a failing `write_videofile` leaves the temporary mixed-audio
file on disk. -/
theorem transient_cleanup_counterexample :
    generateFullAudio (fun s => if s = "q" then none else some 1000)
      "h" "q" "a" "r" = (.error (), ["_tts_hook.mp3"]) ∧
    compositeAndExport true false = (.error (), ["mixed.mp3"]) ∧
    (generateFullAudio (fun s => if s = "q" then none else some 1000)
      "h" "q" "a" "r").2 ≠ [] ∧
    (compositeAndExport true false).2 ≠ [] := by
  refine ⟨rfl, rfl, ?_, ?_⟩
  · intro h
    rw [show (generateFullAudio (fun s => if s = "q" then none else some 1000)
        "h" "q" "a" "r").2 = ["_tts_hook.mp3"] from rfl] at h
    exact List.cons_ne_nil _ _ h
  · intro h
    rw [show (compositeAndExport true false).2 = ["mixed.mp3"] from rfl] at h
    exact List.cons_ne_nil _ _ h

/-- C5 amended: transient files are deleted on the success path only.
Whenever the builder returns normally, every per-segment `_tts_*.mp3`
file has been unlinked, and whenever the compositor's export succeeds,
the temporary mixed-audio file has been unlinked; a failure part-way
leaves the files already created (shown by the counterexample). -/
theorem transient_cleanup_on_success (synth : String → Option ℕ)
    (hook_text quote_text author_name reflection_text : String)
    (writeAudioOk writeVideoOk : Bool)
    (hb : ((generateFullAudio synth hook_text quote_text author_name
      reflection_text).1.toOption.isSome) = true)
    (hc : ((compositeAndExport writeAudioOk writeVideoOk).1.toOption.isSome) = true) :
    (generateFullAudio synth hook_text quote_text author_name reflection_text).2 = [] ∧
    (compositeAndExport writeAudioOk writeVideoOk).2 = [] := by
  constructor
  · rw [generateFullAudio] at hb ⊢
    cases h1 : synth hook_text with
    | none => rfl
    | some dh =>
      cases h2 : synth quote_text with
      | none => rw [h1, h2] at hb; simp [Except.toOption] at hb
      | some dq =>
        cases h3 : synth author_name with
        | none => rw [h1, h2, h3] at hb; simp [Except.toOption] at hb
        | some da =>
          cases h4 : synth reflection_text with
          | none => rw [h1, h2, h3, h4] at hb; simp [Except.toOption] at hb
          | some dr => rfl
  · rw [compositeAndExport] at hc ⊢
    cases writeAudioOk with
    | false => simp [Except.toOption] at hc
    | true =>
      cases writeVideoOk with
      | false => simp [Except.toOption] at hc
      | true => rfl

/-- Witness for `transient_cleanup_on_success` at an always-succeeding
backend and successful writes. -/
theorem transient_cleanup_on_success_witness :
    (generateFullAudio (fun _ => some 1000) "h" "q" "a" "r").2 = [] ∧
    (compositeAndExport true true).2 = [] :=
  transient_cleanup_on_success (fun _ => some 1000) "h" "q" "a" "r"
    true true rfl rfl

/-- C8: for every word count of at least 1, `get_font_settings` selects
exactly one tier, the first whose inclusive upper bound satisfies
`word_count <= max_words` (short ≤ 12 → size 72 / 4 words per line,
medium ≤ 25 → 58 / 5, long ≤ 45 → 48 / 6, extra otherwise → 40 / 7);
in particular 12 words select the short tier and 13 the medium tier. -/
theorem font_tier_selection (n : ℕ) (_hn : 1 ≤ n) :
    (n ≤ 12 → get_font_settings n = ⟨72, 4⟩) ∧
    (13 ≤ n → n ≤ 25 → get_font_settings n = ⟨58, 5⟩) ∧
    (26 ≤ n → n ≤ 45 → get_font_settings n = ⟨48, 6⟩) ∧
    (46 ≤ n → get_font_settings n = ⟨40, 7⟩) ∧
    get_font_settings 12 = ⟨72, 4⟩ ∧
    get_font_settings 13 = ⟨58, 5⟩ := by
  refine ⟨?_, ?_, ?_, ?_, by decide, by decide⟩
  · intro h
    have h1 : decide (n ≤ 12) = true := by simp [h]
    simp [get_font_settings, FONT_SIZE_CONFIG, List.find?, h1]
  · intro h13 h25
    have h1 : decide (n ≤ 12) = false := by simp; omega
    have h2 : decide (n ≤ 25) = true := by simp [h25]
    simp [get_font_settings, FONT_SIZE_CONFIG, List.find?, h1, h2]
  · intro h26 h45
    have h1 : decide (n ≤ 12) = false := by simp; omega
    have h2 : decide (n ≤ 25) = false := by simp; omega
    have h3 : decide (n ≤ 45) = true := by simp [h45]
    simp [get_font_settings, FONT_SIZE_CONFIG, List.find?, h1, h2, h3]
  · intro h46
    have h1 : decide (n ≤ 12) = false := by simp; omega
    have h2 : decide (n ≤ 25) = false := by simp; omega
    have h3 : decide (n ≤ 45) = false := by simp; omega
    rcases le_or_lt n 999 with h4 | h4
    · have h5 : decide (n ≤ 999) = true := by simp [h4]
      simp [get_font_settings, FONT_SIZE_CONFIG, List.find?, h1, h2, h3, h5]
    · have h5 : decide (n ≤ 999) = false := by simp; omega
      simp [get_font_settings, FONT_SIZE_CONFIG, List.find?, h1, h2, h3, h5,
        List.getLastD]

/-- Witness for `font_tier_selection` at the 12 / 13 word boundary. -/
theorem font_tier_selection_witness :
    (1 ≤ 12 ∧ get_font_settings 12 = ⟨72, 4⟩) ∧
    (1 ≤ 13 ∧ get_font_settings 13 = ⟨58, 5⟩) :=
  ⟨⟨by decide, (font_tier_selection 12 (by decide)).1 (by decide)⟩,
   ⟨by decide, ((font_tier_selection 13 (by decide)).2.1 (by decide) (by decide))⟩⟩

/-- When no HOG call on the frames raises, the early-exit detection loop
computes exactly "some frame yields a detection above the threshold". -/
theorem detectLoop_eq_any (hog : ℕ → Except Unit (List ℚ)) (frames : List ℕ)
    (hok : ∀ f ∈ frames, (hog f).toOption.isSome = true) :
    detectLoop hog frames = frames.any (frameDetects hog) := by
  induction frames with
  | nil => rfl
  | cons f fs ih =>
    have hf := hok f (List.mem_cons_self f fs)
    cases h : hog f with
    | error e => rw [h] at hf; simp [Except.toOption] at hf
    | ok ws =>
      rw [detectLoop, h, List.any_cons, frameDetects, h]
      by_cases hd : detectPeopleInFrame ws = true
      · simp [hd]
      · simp only [Bool.not_eq_true] at hd
        simp only [hd, if_false, Bool.false_or]
        exact ih (fun g hg => hok g (List.mem_cons_of_mem f hg))

/-- C7: the content filter reports "people present" iff the detection
backend is available and at least one sampled frame yields a person
detection above the 0.3 confidence threshold (given that no detection
call raises); when the backend is unavailable, or frame extraction
raises, or a HOG call raises before any positive frame, it reports
`False`, so detector unavailability never blocks acquisition.  The five
sampled positions are the evenly spaced fractions 0.1 … 0.9 of the clip
(shown at a 100-frame clip). -/
theorem has_people_filter (available : Bool) (frames : List ℕ)
    (hog : ℕ → Except Unit (List ℚ))
    (hok : ∀ f ∈ frames, (hog f).toOption.isSome = true) :
    (hasPeople available (.ok frames) hog = true ↔
      available = true ∧
        ∃ f ∈ frames, ∃ ws, hog f = .ok ws ∧ detectPeopleInFrame ws = true) ∧
    hasPeople false (.ok frames) hog = false ∧
    hasPeople available (.error ()) hog = false ∧
    (∀ f fs, hog f = .error () → detectLoop hog (f :: fs) = false) ∧
    samplePositions 100 5 = [10, 30, 50, 70, 90] := by
  refine ⟨?_, rfl, ?_, ?_,
    by norm_num [samplePositions, linspace, List.range_succ]⟩
  · cases available with
    | false => simp [hasPeople]
    | true =>
      rw [hasPeople, if_pos rfl, detectLoop_eq_any hog frames hok, List.any_eq_true]
      simp only [true_and]
      constructor
      · rintro ⟨f, hf, hdet⟩
        refine ⟨f, hf, ?_⟩
        rw [frameDetects] at hdet
        cases h : hog f with
        | error e => rw [h] at hdet; cases hdet
        | ok ws => rw [h] at hdet; exact ⟨ws, rfl, hdet⟩
      · rintro ⟨f, hf, ws, hws, hdet⟩
        exact ⟨f, hf, by rw [frameDetects, hws]; exact hdet⟩
  · cases available <;> rfl
  · intro f fs h
    rw [detectLoop, h]

/-- Witness for `has_people_filter`: two frames, the second of which
yields a detection of weight 0.4 > 0.3. -/
theorem has_people_filter_witness :
    hasPeople true (.ok [0, 1])
        (fun f => .ok (if f = 0 then [(1:ℚ)/5] else [2/5])) = true ↔
      true = true ∧
        ∃ f ∈ [0, 1], ∃ ws,
          (fun f => Except.ok (ε := Unit) (if f = 0 then [(1:ℚ)/5] else [2/5])) f =
              .ok ws ∧
            detectPeopleInFrame ws = true :=
  (has_people_filter true [0, 1]
    (fun f => .ok (if f = 0 then [(1:ℚ)/5] else [2/5])) (by decide)).1

/-- C9 counterexample: `render_text` is not a pure mapping of its full
parameter list.  With the PIL pipeline instantiated to report the stroke
width it was asked to draw, a call with `stroke_width = 5` made after a
call with `stroke_width = 3` (all cached-key parameters equal) returns
the raster of the earlier call (3), while the same call on a fresh
renderer returns 5 — the result depends on an earlier call made with
different parameter values. -/
theorem render_text_purity_counterexample :
    (renderText (fun p => p.stroke_width)
        (renderText (fun p => p.stroke_width) [] sampleParams).2
        { sampleParams with stroke_width := 5 }).1 = 3 ∧
    (renderText (fun p => p.stroke_width) []
        { sampleParams with stroke_width := 5 }).1 = 5 ∧
    (renderText (fun p => p.stroke_width)
        (renderText (fun p => p.stroke_width) [] sampleParams).2
        { sampleParams with stroke_width := 5 }).1 ≠
      (renderText (fun p => p.stroke_width) []
        { sampleParams with stroke_width := 5 }).1 := by
  refine ⟨rfl, rfl, ?_⟩
  intro h
  rw [show (renderText (fun p => p.stroke_width)
      (renderText (fun p => p.stroke_width) [] sampleParams).2
      { sampleParams with stroke_width := 5 }).1 = 3 from rfl,
    show (renderText (fun p => p.stroke_width) []
      { sampleParams with stroke_width := 5 }).1 = 5 from rfl] at h
  cases h

/-- C9 amended: `render_text` is deterministic in its cache key
`(text, font_path, font_size, color, words_per_line, align, enable_glow)`:
two calls on the same renderer whose parameters agree on the key return
identical rasters (in particular, identical full parameter lists yield
pixel-identical output), and a call on a cold key rasterizes from its
full parameter list; parameters outside the key (max_width, stroke,
shadow, glow radius/opacity) influence the output only through the first
call with a given key. -/
theorem render_text_cache_key_purity {Raster : Type}
    (rasterize : RenderParams → Raster) (cache : RenderCache Raster)
    (p1 p2 : RenderParams) (hk : cacheKey p1 = cacheKey p2) :
    (renderText rasterize (renderText rasterize cache p1).2 p2).1 =
      (renderText rasterize cache p1).1 ∧
    (List.find? (fun e => e.1 = cacheKey p1) cache = none →
      (renderText rasterize cache p1).1 = rasterize p1) := by
  constructor
  · cases hfind : List.find? (fun e => e.1 = cacheKey p1) cache with
    | some e =>
      have h1 : renderText rasterize cache p1 = (e.2, cache) := by
        rw [renderText, hfind]
      rw [h1, renderText, ← hk, hfind]
    | none =>
      have h1 : renderText rasterize cache p1 =
          (rasterize p1, (cacheKey p1, rasterize p1) :: cache) := by
        rw [renderText, hfind]
      rw [h1, renderText, ← hk, List.find?_cons_of_pos _ (by simp)]
  · intro hnone
    rw [renderText, hnone]

/-- Witness for `render_text_cache_key_purity`: repeating the identical
call returns the identical raster, and the cold call rasterizes from the
full parameter list. -/
theorem render_text_cache_key_purity_witness :
    (renderText (fun p => p.stroke_width)
        (renderText (fun p => p.stroke_width) [] sampleParams).2
        sampleParams).1 =
      (renderText (fun p => p.stroke_width) [] sampleParams).1 ∧
    (renderText (fun p => p.stroke_width) [] sampleParams).1 =
      sampleParams.stroke_width :=
  ⟨(render_text_cache_key_purity (fun p => p.stroke_width) [] sampleParams
      sampleParams rfl).1,
   (render_text_cache_key_purity (fun p => p.stroke_width) [] sampleParams
      sampleParams rfl).2 rfl⟩

/-- The zoom factor is at least 1 throughout the animation. -/
theorem one_le_currentZoom (z d t : ℚ) (hz : 1 ≤ z) (hd : 0 < d) (ht0 : 0 ≤ t) :
    1 ≤ currentZoom z d t := by
  rw [currentZoom]
  have h := mul_nonneg (sub_nonneg.mpr hz) (div_nonneg ht0 hd.le)
  linarith

/-- The crop width never exceeds the frame width. -/
theorem cropWidth_le (w : ℕ) (z d t : ℚ) (hz : 1 ≤ z) (hd : 0 < d) (ht0 : 0 ≤ t) :
    cropWidth w z d t ≤ (w : ℤ) := by
  rw [cropWidth]
  calc ⌊(w : ℚ) / currentZoom z d t⌋ ≤ ⌊(w : ℚ)⌋ :=
        Int.floor_le_floor (div_le_self (Nat.cast_nonneg w)
          (one_le_currentZoom z d t hz hd ht0))
    _ = (w : ℤ) := Int.floor_natCast w

/-- The crop width is nonnegative. -/
theorem cropWidth_nonneg (w : ℕ) (z d t : ℚ) (hz : 1 ≤ z) (hd : 0 < d) (ht0 : 0 ≤ t) :
    0 ≤ cropWidth w z d t := by
  rw [cropWidth]
  exact Int.floor_nonneg.mpr (div_nonneg (Nat.cast_nonneg w)
    (by linarith [one_le_currentZoom z d t hz hd ht0]))

/-- C10 counterexample: the crop window does not shrink linearly.  At a
1080-wide frame, zoom ratio 1.1, duration 10 s, the code's crop width at
t = 5 is `int(1080 / 1.05) = 1028`, while the linear interpolation
between the full frame (1080) and `1080 / 1.1` the claim describes is
1030.909…, floor 1030. -/
theorem ken_burns_linear_counterexample :
    cropWidth 1080 (11/10) 10 5 = 1028 ∧
    ⌊linearCropWidth 1080 (11/10) 10 5⌋ = 1030 ∧
    (cropWidth 1080 (11/10) 10 5 : ℚ) ≠ linearCropWidth 1080 (11/10) 10 5 ∧
    cropWidth 1080 (11/10) 10 5 ≠ ⌊linearCropWidth 1080 (11/10) 10 5⌋ := by
  refine ⟨?_, ?_, ?_, ?_⟩ <;>
    norm_num [cropWidth, currentZoom, linearCropWidth]

/-- C10 amended: the Ken Burns crop window at time `t ∈ [0, d]` has width
`⌊w / (1 + (z − 1)·t/d)⌋` — it shrinks inverse-linearly (hyperbolically),
not linearly — monotonically non-increasing in `t`, from the full frame
at `t = 0` to `⌊w/z⌋` (1/z of the frame) at `t = d`; the window lies
inside the frame and is centered to within one pixel (the left and right
margins differ by at most 1). -/
theorem ken_burns_window (w h : ℕ) (z d t : ℚ) (hz : 1 ≤ z) (hd : 0 < d)
    (ht0 : 0 ≤ t) (_htd : t ≤ d) :
    (kenBurnsCropWindow w h z d t).x2 - (kenBurnsCropWindow w h z d t).x1 =
      cropWidth w z d t ∧
    cropWidth w z d 0 = (w : ℤ) ∧
    cropWidth w z d d = ⌊(w : ℚ) / z⌋ ∧
    (∀ t1 t2 : ℚ, 0 ≤ t1 → t1 ≤ t2 → t2 ≤ d →
      cropWidth w z d t2 ≤ cropWidth w z d t1) ∧
    0 ≤ (kenBurnsCropWindow w h z d t).x1 ∧
    (kenBurnsCropWindow w h z d t).x2 ≤ (w : ℤ) ∧
    0 ≤ ((w : ℤ) - (kenBurnsCropWindow w h z d t).x2) -
        (kenBurnsCropWindow w h z d t).x1 ∧
    ((w : ℤ) - (kenBurnsCropWindow w h z d t).x2) -
        (kenBurnsCropWindow w h z d t).x1 ≤ 1 := by
  have hle := cropWidth_le w z d t hz hd ht0
  have hnn := cropWidth_nonneg w z d t hz hd ht0
  have hdm := Int.fdiv_add_fmod ((w : ℤ) - cropWidth w z d t) 2
  have hr0 := Int.fmod_nonneg' ((w : ℤ) - cropWidth w z d t)
    (by norm_num : (0:ℤ) < 2)
  have hr2 := Int.fmod_lt_of_pos ((w : ℤ) - cropWidth w z d t)
    (by norm_num : (0:ℤ) < 2)
  refine ⟨?_, ?_, ?_, ?_, ?_, ?_, ?_, ?_⟩
  · simp only [kenBurnsCropWindow]
    ring
  · rw [cropWidth, currentZoom]
    norm_num
  · rw [cropWidth, currentZoom, div_self hd.ne']
    ring_nf
  · intro t1 t2 ht1 h12 h2d
    have hz1 := one_le_currentZoom z d t1 hz hd ht1
    have hz2 := one_le_currentZoom z d t2 hz hd (le_trans ht1 h12)
    have hmono : currentZoom z d t1 ≤ currentZoom z d t2 := by
      rw [currentZoom, currentZoom]
      have hdiv : t1 / d ≤ t2 / d := by
        apply div_le_div_of_nonneg_right h12 hd.le
      nlinarith [sub_nonneg.mpr hz]
    exact Int.floor_le_floor (div_le_div_of_nonneg_left
      (Nat.cast_nonneg w) (by linarith) hmono)
  · simp only [kenBurnsCropWindow]
    omega
  · simp only [kenBurnsCropWindow]
    omega
  · simp only [kenBurnsCropWindow]
    omega
  · simp only [kenBurnsCropWindow]
    omega

/-- Each iteration of the fresh-download loop records at most one query,
and only queries not yet tried, so the log stays duplicate-free. -/
theorem freshLoop_log (env : AcqEnv) (rnd : AcqRandom) :
    ∀ (n : ℕ) (tried : List String),
      (freshLoop env rnd n tried).2.length ≤ tried.length + n ∧
      (tried.Nodup → (freshLoop env rnd n tried).2.Nodup) := by
  intro n
  induction n with
  | zero =>
    intro tried
    exact ⟨by simp [freshLoop], fun h => by simpa [freshLoop] using h⟩
  | succ n ih =>
    intro tried
    simp only [freshLoop]
    split
    · exact ⟨by show tried.length ≤ tried.length + (n + 1); omega, fun h => h⟩
    · rename_i q hget
      have hq : q ∉ tried := by
        have hm := (List.mem_filter.mp (List.get?_mem hget)).2
        simpa using hm
      have hnodup : tried.Nodup → (tried ++ [q]).Nodup := by
        intro h
        simp only [List.nodup_append, List.nodup_cons, List.not_mem_nil,
          not_false_iff, List.nodup_nil, and_true, true_and]
        exact ⟨h, fun a ha hmem => hq (by
          simp only [List.mem_singleton] at hmem
          exact hmem ▸ ha)⟩
      have hlen : (freshLoop env rnd n (tried ++ [q])).2.length ≤
          tried.length + (n + 1) := by
        have hih := (ih (tried ++ [q])).1
        simp only [List.length_append, List.length_singleton] at hih
        omega
      have hnd : tried.Nodup → (freshLoop env rnd n (tried ++ [q])).2.Nodup :=
        fun h => (ih (tried ++ [q])).2 (hnodup h)
      split
      · exact ⟨hlen, hnd⟩
      · split
        · exact ⟨hlen, hnd⟩
        · split
          · exact ⟨hlen, hnd⟩
          · refine ⟨?_, fun h => hnodup h⟩
            show (tried ++ [q]).length ≤ tried.length + (n + 1)
            simp only [List.length_append, List.length_singleton]
            omega

/-- The query log of `get_dynamic_background` is empty (cache reuse hit)
or exactly the fresh-download loop's log. -/
theorem getDynamicBackground_log (env : AcqEnv) (rnd : AcqRandom)
    (cachedFiles : List String) :
    (getDynamicBackground env rnd cachedFiles).2 = [] ∨
    (getDynamicBackground env rnd cachedFiles).2 = (freshLoop env rnd 3 []).2 := by
  cases hfl : freshLoop env rnd 3 [] with
  | mk res log =>
    simp only [getDynamicBackground, hfl]
    split
    · exact Or.inl rfl
    · cases res with
      | some p => right; simp
      | none =>
        right
        split
        · rename_i heq
          exact absurd heq (by simp)
        · rename_i heq
          injection heq with h1 h2
          subst h2
          split <;> rfl

/-- C6: every call of `get_dynamic_background` performs at most 3 fresh
remote search attempts, the query terms used are pairwise distinct, and
a provider failure or empty result is absorbed as "no candidate": the
call returns a path or `None`, and a raised error inside the search
request or the download request yields `None` from that step instead of
propagating (shown for an always-raising provider). -/
theorem background_acquisition_retry_budget (env : AcqEnv) (rnd : AcqRandom)
    (cachedFiles : List String) :
    (getDynamicBackground env rnd cachedFiles).2.length ≤ 3 ∧
    (getDynamicBackground env rnd cachedFiles).2.Nodup ∧
    searchPexelVideo true (fun _ => .error ()) 0 "ocean storm vertical" = none ∧
    downloadVideo (fun _ => false) (fun _ => .error ())
      ⟨1, 30, [⟨1080, 1920, "u"⟩]⟩ = none := by
  have hlog := getDynamicBackground_log env rnd cachedFiles
  have hfl := freshLoop_log env rnd 3 []
  refine ⟨?_, ?_, rfl, ?_⟩
  · rcases hlog with h | h
    · simp [h]
    · rw [h]
      simpa using hfl.1
  · rcases hlog with h | h
    · simp [h]
    · rw [h]
      exact hfl.2 List.nodup_nil
  · simp [downloadVideo, List.mergeSort, targetFileName]

/-- Witness for `ken_burns_window` at a 1080×1920 frame, zoom 1.1,
duration 10 s, time 5 s. -/
theorem ken_burns_window_witness :
    (kenBurnsCropWindow 1080 1920 (11/10) 10 5).x2 -
        (kenBurnsCropWindow 1080 1920 (11/10) 10 5).x1 =
      cropWidth 1080 (11/10) 10 5 ∧
    cropWidth 1080 (11/10) 10 0 = (1080 : ℤ) :=
  ⟨(ken_burns_window 1080 1920 (11/10) 10 5 (by norm_num) (by norm_num)
      (by norm_num) (by norm_num)).1,
   (ken_burns_window 1080 1920 (11/10) 10 5 (by norm_num) (by norm_num)
      (by norm_num) (by norm_num)).2.1⟩

end StoicShorts
